import Mathlib

/-
Verification of powerlibs-django-restless (powerlibs/django/restless/modelviews.py).

The module defines two generic Django view classes, ListEndpoint and
DetailEndpoint, that glue Django's ORM and form layers into JSON CRUD
handlers.  We embed the module shallowly:

* machine state is the table of rows of the configured model (a `Db`);
* every handler is a function `Db → Except PyErr α × Db`: Python
  exceptions become `Except.error` values, and — crucially — raising an
  exception does NOT roll back the database component (there is no
  transaction in the source; see the TODO comments at modelviews.py
  lines 101 and 108);
* the repository modules `.views`, `.http` and `.models` (Endpoint,
  HttpError/Http200/Http201, serialize) are not under src/; they are
  modelled from the spec where marked;
* Django's ORM and form machinery are external collaborators; they are
  modelled abstractly: a model class carries its field list and the
  validation behaviour of its auto-derived model form, a form class
  carries its field list and validation functions.
-/

/-- A JSON-ish scalar value, used for model attributes, payload values and
path parameters. -/
inductive Val
  | vint : Int → Val
  | vstr : String → Val
  | vnone : Val
  deriving DecidableEq

/-- A Python object's attribute dictionary / a JSON object: a list of
(name, value) pairs.  Model instances (rows) are represented this way. -/
abbrev Obj := List (String × Val)

/-- A parsed request payload (`request.data`): a JSON object, a JSON array
of payloads, or null/absent. -/
inductive Data
  | obj : List (String × Val) → Data
  | arr : List Data → Data
  | null : Data

/-- Python truthiness of a parsed payload: empty dict, empty list and None
are falsy (used by the `request.data or None` idiom at modelviews.py
line 206). -/
def Data.truthy : Data → Bool
  | .obj l => !l.isEmpty
  | .arr l => !l.isEmpty
  | .null => false

/-- Modelled from the spec: the response body vocabulary of the repo's
`.models.serialize` helper — a single serialized instance or a serialized
collection ("converts model instances/collections to JSON-compatible
structures"). -/
inductive Body
  | obj : List (String × Val) → Body
  | list : List Obj → Body
  deriving DecidableEq

/-- Modelled from the spec: the response envelope of the repo's `.http`
module — `Http200` (200 OK with body), `Http201` (201 Created with body),
or a plain (unwrapped) return value that the external dispatch layer wraps
into a success response. -/
inductive Resp
  | http200 : Body → Resp
  | http201 : Body → Resp
  | value : Body → Resp
  deriving DecidableEq

/-- Exceptions a handler can raise.  `httpError` is modelled from the
spec: the repo's `.http.HttpError` carries an HTTP status, a message and
structured per-field errors, and is rendered by the external dispatch
layer.  The remaining constructors are ordinary Python exceptions, which
that layer does not translate. -/
inductive PyErr
  | httpError (status : Nat) (message : String) (errors : List (String × String))
  | notImplementedError (message : String)
  | unboundLocalError (name : String)
  | attributeError (message : String)
  | doesNotExist
  | multipleObjectsReturned
  deriving DecidableEq

/-- The stored table of the configured model: a list of rows. -/
abbrev Db := List Obj

/-- Handler semantics: state-threading with Python exceptions.  An
`Except.error` result carries the database as it was at raise time —
mutations made before the exception persist (no rollback). -/
abbrev M (α : Type) := Db → Except PyErr α × Db

/-- Python `getattr` on an attribute dictionary (also used to read a key
of a kwargs/path-parameter dictionary): first matching key wins. -/
def getattr : Obj → String → Option Val
  | [], _ => none
  | p :: rest, k => if p.1 = k then some p.2 else getattr rest k

/-- Does the attribute dictionary have the given key? -/
def hasKey : Obj → String → Bool
  | [], _ => false
  | p :: rest, k => if p.1 = k then true else hasKey rest k

/-- Python `setattr`: overwrite the attribute if present, append it
otherwise. -/
def setattr (r : Obj) (k : String) (v : Val) : Obj :=
  if hasKey r k then r.map (fun p => if p.1 = k then (k, v) else p)
  else r ++ [(k, v)]

/-- Two rows denote the same stored record when their primary keys agree
(Django persists instances by primary key). -/
def samePk (a b : Obj) : Bool :=
  if getattr a "pk" = getattr b "pk" then true else false

/-- Django `instance.save()` on an instance loaded from the table:
update the row with the instance's primary key, or insert a fresh row. -/
def dbSave (inst : Obj) (db : Db) : Db :=
  if db.any (fun r => samePk r inst) then db.map (fun r => if samePk r inst then inst else r)
  else db ++ [inst]

/-- Django `instance.delete()`: remove the row(s) with the instance's
primary key. -/
def dbDelete (inst : Obj) (db : Db) : Db :=
  db.filter (fun r => !samePk r inst)

/-- Modelled from the spec: the repo's `.models.serialize` helper on a
single model instance ("converts model instances … to JSON-compatible
structures"); the instance's attribute dictionary is the JSON object. -/
def serializeObj (r : Obj) : Body := .obj r

/-- Modelled from the spec: the repo's `.models.serialize` helper on a
queryset/collection. -/
def serializeList (rows : List Obj) : Body := .list rows

/-- Abstract model of a Django form class (external collaborator): the
fields the form covers, and the validation outcome / per-field errors as
functions of the bound data and files. -/
structure FormCls where
  ffields : List String
  valid : Obj → Obj → Bool
  errors : Obj → Obj → List (String × String)

/-- Abstract model of a Django model class (external collaborator): its
field list and the validation behaviour of the model form that
`modelform_factory` derives from it. -/
structure ModelCls where
  mfields : List String
  formValid : Obj → Obj → Bool
  formErrors : Obj → Obj → List (String × String)

/-- Django `modelform_factory(model, fields)`: the model form auto-derived
from a model class over all of its fields (modelviews.py lines 16-20; on
Django ≥ 1.8 the factory is called with all fields explicitly, on older
versions the bare factory defaults to all fields — the derived form is the
same either way). -/
def modelform_factory (m : ModelCls) : FormCls :=
  ⟨m.mfields, m.formValid, m.formErrors⟩

/-- Django `form.is_valid()` on a form bound to `boundData` (where `none`
is an unbound form): an unbound form is never valid; a form bound to a
JSON object defers to the form class; binding a non-mapping (a JSON
array) blows up inside Django's form machinery with an ordinary
exception. -/
def is_valid (F : FormCls) (boundData : Option Data) (files : Obj) : Except PyErr Bool :=
  match boundData with
  | none => .ok false
  | some (.obj o) => .ok (F.valid o files)
  | some _ => .error (.attributeError "form data must be a mapping")

/-- Django `form.errors` as read after a failed `is_valid`: an unbound
form has no errors; a bound form reports the form class's per-field
errors. -/
def form_errors (F : FormCls) (boundData : Option Data) (files : Obj) :
    Except PyErr (List (String × String)) :=
  match boundData with
  | none => .ok []
  | some (.obj o) => .ok (F.errors o files)
  | some _ => .error (.attributeError "form data must be a mapping")

/-- Setting a model instance's attributes from the cleaned form data:
every form field that occurs in the submitted data or files is written
onto the instance; attributes outside the form's fields are untouched
(Django's `construct_instance`). -/
def constructInstance (ffields : List String) (data files : Obj) (inst : Obj) : Obj :=
  ffields.foldl
    (fun r f =>
      match getattr (data ++ files) f with
      | some v => setattr r f v
      | none => r)
    inst

/-- Django `form.save()` for a model form: build the instance from the
bound data (starting from the passed-in instance for updates, from a
fresh instance for creates). -/
def form_save (F : FormCls) (boundData : Option Data) (files : Obj) (inst : Obj) : Obj :=
  match boundData with
  | some (.obj o) => constructInstance F.ffields o files inst
  | _ => inst

/-- Does a row's lookup field hold the given value? (the filtering
predicate behind `objects.get(**{field: v})`). -/
def matchesField (lookupField : String) (v : Val) (r : Obj) : Bool :=
  if getattr r lookupField = some v then true else false

/-- Django `model.objects.get(**{field: v})`: exactly one matching row is
returned; zero raises `DoesNotExist`, several raise
`MultipleObjectsReturned`. -/
def objects_get (lookupField : String) (v : Val) (db : Db) : Except PyErr Obj :=
  match db.filter (matchesField lookupField v) with
  | [] => .error .doesNotExist
  | [r] => .ok r
  | _ :: _ :: _ => .error .multipleObjectsReturned

/-- `_get_form(form, model)` (modelviews.py lines 13-27): an explicitly
configured form class wins; otherwise a model form is auto-derived from
the model class; with neither configured a bare `NotImplementedError` is
raised. -/
def _get_form : Option FormCls → Option ModelCls → Except PyErr FormCls
  | some f, _ => .ok f
  | none, some m => .ok (modelform_factory m)
  | none, none => .error (.notImplementedError "Form or Model class not specified")

/-- Python `str.upper()` on a method name (structurally recursive over
the character list, so it evaluates inside proofs). -/
def upperName (s : String) : String := String.mk (s.data.map Char.toUpper)

/-- The nested wrapper `new_method` of the `method` decorator
(modelviews.py lines 31-34): reject the call with a 405 when the wrapped
handler's upper-cased name is not in `self.methods`, otherwise delegate
to the wrapped handler.  `methodsOf` models the `self.methods` attribute
read. -/
def new_method {σ α : Type} (methodName : String) (methodsOf : σ → List String)
    (the_real_method : σ → α → M Resp) (self : σ) (arg : α) : M Resp := fun db =>
  if upperName methodName ∈ methodsOf self then the_real_method self arg db
  else (.error (.httpError 405 "Method Not Allowed" []), db)

/-- The `method` decorator itself (modelviews.py lines 30-34): it defines
the wrapper `new_method` but falls off the end without a return
statement, so in Python it returns `None` — every decorated handler
attribute becomes `None` instead of the gated wrapper. -/
def method {σ α : Type} (methodName : String) (methodsOf : σ → List String)
    (the_real_method : σ → α → M Resp) : Option (σ → α → M Resp) :=
  let _new_method := new_method methodName methodsOf the_real_method
  none

/-- The class-attribute configuration of a `ListEndpoint` subclass:
`model`, `form` and the `methods` allow-list (defaults `None`, `None`,
`['GET', 'POST']`). -/
structure ListCfg where
  model : Option ModelCls
  form : Option FormCls
  methods : List String

/-- A request as seen by `ListEndpoint`: the parsed payload and the
uploaded files.  The batch-create loop (modelviews.py lines 103-105) also
mirrors each entry into the copied request's `POST` attribute, but no
handler ever reads `POST`, so the embedding threads only `data` and
`FILES`. -/
structure LReq where
  data : Data
  files : Obj

/-- `ListEndpoint.get_query_set` (modelviews.py lines 60-76): all rows of
the configured model, or a 404 when no model is configured. -/
def get_query_set (cfg : ListCfg) : M Db := fun db =>
  match cfg.model with
  | some _ => (.ok db, db)
  | none => (.error (.httpError 404 "Resource Not Found" []), db)

/-- The body of `ListEndpoint.get` (modelviews.py lines 89-94): serialize
the queryset (returned unwrapped; the external dispatch layer wraps it). -/
def list_get (cfg : ListCfg) (_req : LReq) : M Resp := fun db =>
  match get_query_set cfg db with
  | (.ok qs, db1) => (.ok (.value (serializeList qs)), db1)
  | (.error e, db1) => (.error e, db1)

/-- Reading a Python local variable: a local that was never assigned on
the executed path raises `UnboundLocalError` (used for the local `entry`
of `ListEndpoint.post`, which is only assigned by the `for` loop of the
list branch but is read at line 112 on the single-object branch). -/
def readLocal (name : String) : Option α → Except PyErr α
  | some v => .ok v
  | none => .error (.unboundLocalError name)

mutual

/-- The single-object branch of `ListEndpoint.post` (modelviews.py lines
111-116), reached when `request.data` is not a list/tuple: resolve the
form class, then evaluate `Form(entry or None, request.FILES)` — which
reads the local `entry`, never assigned on this branch — then validate,
raise 400 on invalid data, or save and return 201.  Everything after the
`entry` read is dead code in the source; it is embedded anyway, line for
line. -/
def postSingle (cfg : ListCfg) (files : Obj) (_d : Data) : M Resp := fun db =>
  match _get_form cfg.form cfg.model with
  | .error e => (.error e, db)
  | .ok F =>
    match readLocal "entry" (none : Option Data) with
    | .error e => (.error e, db)
    | .ok entry =>
      let boundData := if entry.truthy then some entry else none
      match is_valid F boundData files with
      | .error e => (.error e, db)
      | .ok false =>
        match form_errors F boundData files with
        | .error e => (.error e, db)
        | .ok errs => (.error (.httpError 400 "Invalid Data" errs), db)
      | .ok true =>
        let obj := form_save F boundData files []
        (.ok (.http201 (serializeObj obj)), db ++ [obj])

/-- The body of `ListEndpoint.post` (modelviews.py lines 96-116),
dispatching on whether the payload is a list/tuple (`Data.arr`) or a
single object. -/
def postData (cfg : ListCfg) (files : Obj) : Data → M Resp
  | .arr es => postEntries cfg files es
  | .obj o => postSingle cfg files (.obj o)
  | .null => postSingle cfg files .null

/-- The batch-create loop of `ListEndpoint.post` (modelviews.py lines
100-109): process the entries in order, recursing into `self.post` on a
copied request whose payload is the entry; a raised exception propagates
(keeping the rows created so far — the rollback is an unresolved TODO in
the source); a returned non-success response is returned as-is; when
every entry succeeds the loop falls through to `Http201({})`. -/
def postEntries (cfg : ListCfg) (files : Obj) : List Data → M Resp
  | [] => fun db => (.ok (.http201 (.obj [])), db)
  | e :: rest => fun db =>
    match postData cfg files e db with
    | (.error err, db1) => (.error err, db1)
    | (.ok ret, db1) =>
      match ret with
      | .http200 _ => postEntries cfg files rest db1
      | .http201 _ => postEntries cfg files rest db1
      | .value b => (.ok (.value b), db1)

end

/-- The (undecorated) body of `ListEndpoint.post` as a handler of a
request. -/
def list_post (cfg : ListCfg) (req : LReq) : M Resp :=
  postData cfg req.files req.data

/-- The decorated `ListEndpoint.get` class attribute: the result of
applying the `method` decorator to the handler body. -/
def ListEndpoint_get : Option (ListCfg → LReq → M Resp) :=
  method "get" ListCfg.methods list_get

/-- The decorated `ListEndpoint.post` class attribute. -/
def ListEndpoint_post : Option (ListCfg → LReq → M Resp) :=
  method "post" ListCfg.methods list_post

/-- The class-attribute configuration of a `DetailEndpoint` subclass:
`model`, `form`, `lookup_field` and the `methods` allow-list (defaults
`None`, `None`, `'pk'`, `['GET', 'PUT', 'PATCH', 'DELETE']`). -/
structure DetailCfg where
  model : Option ModelCls
  form : Option FormCls
  lookup_field : String
  methods : List String

/-- A request as seen by `DetailEndpoint`, together with the URL-pattern
keyword arguments (path parameters). -/
structure DReq where
  data : Data
  files : Obj
  kwargs : List (String × Val)

/-- `DetailEndpoint.get_instance` (modelviews.py lines 142-169): when a
model is configured and the lookup field occurs in the path parameters,
fetch the unique row whose lookup field equals the parameter value,
turning `DoesNotExist` into a 404; in every other configuration raise a
404 directly.  (`MultipleObjectsReturned` is not caught and propagates.) -/
def get_instance (cfg : DetailCfg) (req : DReq) : M Obj := fun db =>
  match cfg.model, getattr req.kwargs cfg.lookup_field with
  | some _, some v =>
    match objects_get cfg.lookup_field v db with
    | .ok r => (.ok r, db)
    | .error .doesNotExist => (.error (.httpError 404 "Resource Not Found" []), db)
    | .error e => (.error e, db)
  | _, _ => (.error (.httpError 404 "Resource Not Found" []), db)

/-- The body of `DetailEndpoint.get` (modelviews.py lines 181-185):
serialize the resolved instance (returned unwrapped). -/
def detail_get (cfg : DetailCfg) (req : DReq) : M Resp := fun db =>
  match get_instance cfg req db with
  | (.ok inst, db1) => (.ok (.value (serializeObj inst)), db1)
  | (.error e, db1) => (.error e, db1)

/-- Folding the payload's key/value pairs onto an instance with plain
`setattr`, in payload order (the loop at modelviews.py lines 193-194). -/
def applyPairs (kvs : List (String × Val)) (inst : Obj) : Obj :=
  kvs.foldl (fun r p => setattr r p.1 p.2) inst

/-- The body of `DetailEndpoint.patch` (modelviews.py lines 187-198):
resolve the instance, assign every payload key/value pair directly with
`setattr` (no form involved), save, and return 200 with the serialized
instance.  `request.data.items()` on a non-dict payload raises an
ordinary `AttributeError`. -/
def detail_patch (cfg : DetailCfg) (req : DReq) : M Resp := fun db =>
  match get_instance cfg req db with
  | (.error e, db1) => (.error e, db1)
  | (.ok inst, db1) =>
    match req.data with
    | .obj kvs =>
      let inst1 := applyPairs kvs inst
      (.ok (.http200 (serializeObj inst1)), dbSave inst1 db1)
    | _ => (.error (.attributeError "request data has no items method"), db1)

/-- The body of `DetailEndpoint.put` (modelviews.py lines 200-210):
resolve the form class first, then the instance, bind the form to
`request.data or None` plus the files and the instance, validate; on
success save and return 200 with the serialized instance, otherwise raise
a 400 with the form's errors. -/
def detail_put (cfg : DetailCfg) (req : DReq) : M Resp := fun db =>
  match _get_form cfg.form cfg.model with
  | .error e => (.error e, db)
  | .ok F =>
    match get_instance cfg req db with
    | (.error e, db1) => (.error e, db1)
    | (.ok inst, db1) =>
      let boundData := if req.data.truthy then some req.data else none
      match is_valid F boundData req.files with
      | .error e => (.error e, db1)
      | .ok true =>
        let obj := form_save F boundData req.files inst
        (.ok (.http200 (serializeObj obj)), dbSave obj db1)
      | .ok false =>
        match form_errors F boundData req.files with
        | .error e => (.error e, db1)
        | .ok errs => (.error (.httpError 400 "Invalid data" errs), db1)

/-- The body of `DetailEndpoint.delete` (modelviews.py lines 212-218):
resolve the instance, delete it, return an empty dict (unwrapped). -/
def detail_delete (cfg : DetailCfg) (req : DReq) : M Resp := fun db =>
  match get_instance cfg req db with
  | (.error e, db1) => (.error e, db1)
  | (.ok inst, db1) => (.ok (.value (.obj [])), dbDelete inst db1)

/-- The decorated `DetailEndpoint.get` class attribute. -/
def DetailEndpoint_get : Option (DetailCfg → DReq → M Resp) :=
  method "get" DetailCfg.methods detail_get

/-- The decorated `DetailEndpoint.patch` class attribute. -/
def DetailEndpoint_patch : Option (DetailCfg → DReq → M Resp) :=
  method "patch" DetailCfg.methods detail_patch

/-- The decorated `DetailEndpoint.put` class attribute. -/
def DetailEndpoint_put : Option (DetailCfg → DReq → M Resp) :=
  method "put" DetailCfg.methods detail_put

/-- The decorated `DetailEndpoint.delete` class attribute. -/
def DetailEndpoint_delete : Option (DetailCfg → DReq → M Resp) :=
  method "delete" DetailCfg.methods detail_delete

/-- A response counts as a success for the batch-create loop's
`isinstance(ret, (Http201, Http200))` test. -/
def isSuccessResp : Resp → Bool
  | .http200 _ => true
  | .http201 _ => true
  | .value _ => false

/-- Sequentially processing batch entries, for stating properties of the
loop: run the single-entry creation on each element in order, returning
the accumulated database when every element yields a success response,
and nothing as soon as one fails. -/
def procAll (cfg : ListCfg) (files : Obj) : List Data → Db → Option Db
  | [], db => some db
  | e :: rest, db =>
    match postData cfg files e db with
    | (.ok r, db1) => if isSuccessResp r then procAll cfg files rest db1 else none
    | (.error _, _) => none

/-- A concrete model class for closed witness instances: a single field
"name"; its auto-derived model form accepts exactly the payloads carrying
a "name" key and otherwise reports the missing field. -/
def exampleModel : ModelCls :=
  ⟨["name"], fun d _ => hasKey d "name",
    fun d _ => if hasKey d "name" then [] else [("name", "This field is required.")]⟩

/-- A ListEndpoint subclass configuration with the example model and the
default allow-list. -/
def exampleListCfg : ListCfg := ⟨some exampleModel, none, ["GET", "POST"]⟩

/-- A DetailEndpoint subclass configuration with the example model and
the default lookup field and allow-list. -/
def exampleDetailCfg : DetailCfg :=
  ⟨some exampleModel, none, "pk", ["GET", "PUT", "PATCH", "DELETE"]⟩

/-- A stored example row with primary key 1. -/
def exampleRow : Obj := [("pk", .vint 1), ("name", .vstr "x")]

theorem getattr_append (r s : Obj) (k : String) :
    getattr (r ++ s) k = match getattr r k with
      | some v => some v
      | none => getattr s k := by
  induction r with
  | nil => simp [getattr]
  | cons p rest ih =>
    by_cases h : p.1 = k <;> simp [getattr, h, ih]

theorem hasKey_false_getattr {r : Obj} {k : String} (h : hasKey r k = false) :
    getattr r k = none := by
  induction r with
  | nil => simp [getattr]
  | cons p rest ih =>
    by_cases hp : p.1 = k
    · simp [hasKey, hp] at h
    · simp [hasKey, hp] at h
      simp [getattr, hp, ih h]

theorem getattr_map_replace {r : Obj} {k : String} (v : Val) (h : hasKey r k = true) :
    getattr (r.map (fun p => if p.1 = k then (k, v) else p)) k = some v := by
  induction r with
  | nil => simp [hasKey] at h
  | cons p rest ih =>
    by_cases hp : p.1 = k
    · simp [getattr, hp]
    · simp [hasKey, hp] at h
      simp [getattr, hp, ih h]

theorem getattr_map_replace_ne {k k1 : String} (hne : k ≠ k1) (r : Obj) (v : Val) :
    getattr (r.map (fun p => if p.1 = k1 then (k1, v) else p)) k = getattr r k := by
  have hne1 : ¬(k1 = k) := fun hh => hne hh.symm
  induction r with
  | nil => simp [getattr]
  | cons p rest ih =>
    by_cases hp : p.1 = k1
    · have hpk : ¬(p.1 = k) := by rw [hp]; exact hne1
      simp [getattr, hp, hpk, hne1, ih]
    · by_cases hk : p.1 = k <;> simp [getattr, hp, hk, hne, hne1, ih]

theorem getattr_setattr_self (r : Obj) (k : String) (v : Val) :
    getattr (setattr r k v) k = some v := by
  unfold setattr
  by_cases h : hasKey r k
  · simp [h, getattr_map_replace v h]
  · have h0 : hasKey r k = false := by simpa using h
    simp [h0, getattr_append, hasKey_false_getattr h0, getattr]

theorem getattr_setattr_ne {k k1 : String} (hne : k ≠ k1) (r : Obj) (v : Val) :
    getattr (setattr r k1 v) k = getattr r k := by
  have hne1 : ¬(k1 = k) := fun hh => hne hh.symm
  unfold setattr
  by_cases h : hasKey r k1
  · simp [h, getattr_map_replace_ne hne]
  · simp [h, getattr_append]
    cases hg : getattr r k with
    | some w => simp
    | none => simp [getattr, hne1]

theorem applyPairs_cons (p : String × Val) (kvs : List (String × Val)) (inst : Obj) :
    applyPairs (p :: kvs) inst = applyPairs kvs (setattr inst p.1 p.2) := rfl

theorem getattr_applyPairs_not_mem {k : String} :
    ∀ (kvs : List (String × Val)) (inst : Obj), k ∉ kvs.map Prod.fst →
      getattr (applyPairs kvs inst) k = getattr inst k := by
  intro kvs
  induction kvs with
  | nil => intro inst _; rfl
  | cons p rest ih =>
    intro inst h
    rw [List.map_cons, List.mem_cons] at h
    push_neg at h
    rw [applyPairs_cons, ih _ h.2, getattr_setattr_ne h.1]

theorem getattr_applyPairs_last {k : String} {v : Val} (l1 l2 : List (String × Val))
    (inst : Obj) (h : k ∉ l2.map Prod.fst) :
    getattr (applyPairs (l1 ++ (k, v) :: l2) inst) k = some v := by
  unfold applyPairs
  rw [List.foldl_append, List.foldl_cons]
  rw [show ∀ o : Obj, List.foldl (fun r p => setattr r p.1 p.2) o l2 = applyPairs l2 o from fun _ => rfl]
  rw [getattr_applyPairs_not_mem l2 _ h]
  exact getattr_setattr_self _ k v

theorem getattr_constructInstance_not_mem {k : String} :
    ∀ (ffields : List String) (data files inst : Obj), k ∉ ffields →
      getattr (constructInstance ffields data files inst) k = getattr inst k := by
  intro ffields
  induction ffields with
  | nil => intro data files inst _; rfl
  | cons f rest ih =>
    intro data files inst h
    rw [List.mem_cons] at h
    push_neg at h
    show getattr (constructInstance rest data files
      (match getattr (data ++ files) f with
        | some v => setattr inst f v
        | none => inst)) k = getattr inst k
    rw [ih data files _ h.2]
    cases getattr (data ++ files) f with
    | some v => exact getattr_setattr_ne h.1 inst v
    | none => rfl

theorem _get_form_error_eq {f : Option FormCls} {m : Option ModelCls} {e : PyErr}
    (h : _get_form f m = .error e) :
    f = none ∧ m = none ∧ e = .notImplementedError "Form or Model class not specified" := by
  cases f with
  | some F => simp [_get_form] at h
  | none =>
    cases m with
    | some M => simp [_get_form] at h
    | none =>
      simp [_get_form] at h
      exact ⟨rfl, rfl, h.symm⟩

theorem postSingle_eq (cfg : ListCfg) (files : Obj) (d : Data) (db : Db) :
    postSingle cfg files d db =
      match _get_form cfg.form cfg.model with
      | .ok _ => (.error (.unboundLocalError "entry"), db)
      | .error e => (.error e, db) := by
  unfold postSingle
  cases _get_form cfg.form cfg.model with
  | error e => rfl
  | ok F => rfl

theorem postSingle_spec (cfg : ListCfg) (files : Obj) (d : Data) (db : Db) :
    (postSingle cfg files d db).2 = db ∧
      ((postSingle cfg files d db).1 =
          .error (.notImplementedError "Form or Model class not specified") ∨
        (postSingle cfg files d db).1 = .error (.unboundLocalError "entry")) := by
  rw [postSingle_eq]
  cases h : _get_form cfg.form cfg.model with
  | error e =>
    exact ⟨rfl, .inl (by rw [(_get_form_error_eq h).2.2])⟩
  | ok F => exact ⟨rfl, .inr rfl⟩

theorem postData_arr (cfg : ListCfg) (files : Obj) (es : List Data) :
    postData cfg files (.arr es) = postEntries cfg files es := rfl

theorem postEntries_nil (cfg : ListCfg) (files : Obj) (db : Db) :
    postEntries cfg files [] db = (.ok (.http201 (.obj [])), db) := rfl

theorem postEntries_cons (cfg : ListCfg) (files : Obj) (e : Data) (rest : List Data)
    (db : Db) :
    postEntries cfg files (e :: rest) db =
      match postData cfg files e db with
      | (.error err, db1) => (.error err, db1)
      | (.ok ret, db1) =>
        match ret with
        | .http200 _ => postEntries cfg files rest db1
        | .http201 _ => postEntries cfg files rest db1
        | .value b => (.ok (.value b), db1) := rfl

/-- `ListEndpoint.post` never changes the stored table and its outcome is
always one of: the empty 201 of an all-success batch, the configuration
`NotImplementedError`, or the `UnboundLocalError` on `entry`.  In
particular no validation error is ever produced and no row is ever
persisted. -/
theorem postData_pure (cfg : ListCfg) (files : Obj) (d : Data) :
    ∀ db : Db, (postData cfg files d db).2 = db ∧
      ((postData cfg files d db).1 = .ok (.http201 (.obj [])) ∨
        (postData cfg files d db).1 =
          .error (.notImplementedError "Form or Model class not specified") ∨
        (postData cfg files d db).1 = .error (.unboundLocalError "entry")) := by
  refine postData.induct cfg files
    (fun d => ∀ db : Db, (postData cfg files d db).2 = db ∧
      ((postData cfg files d db).1 = .ok (.http201 (.obj [])) ∨
        (postData cfg files d db).1 =
          .error (.notImplementedError "Form or Model class not specified") ∨
        (postData cfg files d db).1 = .error (.unboundLocalError "entry")))
    (fun es => ∀ db : Db, (postEntries cfg files es db).2 = db ∧
      ((postEntries cfg files es db).1 = .ok (.http201 (.obj [])) ∨
        (postEntries cfg files es db).1 =
          .error (.notImplementedError "Form or Model class not specified") ∨
        (postEntries cfg files es db).1 = .error (.unboundLocalError "entry")))
    ?_ ?_ ?_ ?_ ?_ d
  · intro es h db
    rw [postData_arr]
    exact h db
  · intro o db
    have h := postSingle_spec cfg files (.obj o) db
    have hd : postData cfg files (.obj o) db = postSingle cfg files (.obj o) db := rfl
    rw [hd]
    exact ⟨h.1, .inr h.2⟩
  · intro db
    have h := postSingle_spec cfg files .null db
    have hd : postData cfg files .null db = postSingle cfg files .null db := rfl
    rw [hd]
    exact ⟨h.1, .inr h.2⟩
  · intro db
    exact ⟨rfl, .inl rfl⟩
  · intro e rest ihe ihrest db
    rw [postEntries_cons]
    rcases hp : postData cfg files e db with ⟨o, db1⟩
    have he := ihe db
    rw [hp] at he
    rcases o with err | ret
    · exact ⟨he.1, by
        rcases he.2 with h1 | h1 | h1
        · exact absurd h1 (by simp)
        · exact .inr (.inl (by simp at h1 ⊢; exact h1))
        · exact .inr (.inr (by simp at h1 ⊢; exact h1))⟩
    · have hret : ret = .http201 (.obj []) := by
        rcases he.2 with h1 | h1 | h1
        · simpa using h1
        · exact absurd h1 (by simp)
        · exact absurd h1 (by simp)
      subst hret
      have hdb : db1 = db := he.1
      subst hdb
      exact ihrest db1

theorem procAll_nil (cfg : ListCfg) (files : Obj) (db : Db) :
    procAll cfg files [] db = some db := rfl

theorem procAll_cons (cfg : ListCfg) (files : Obj) (e : Data) (rest : List Data) (db : Db) :
    procAll cfg files (e :: rest) db =
      match postData cfg files e db with
      | (.ok r, db1) => if isSuccessResp r then procAll cfg files rest db1 else none
      | (.error _, _) => none := rfl

/-- When every batch entry yields a success response in sequence, the
loop falls through and returns `Http201({})` with the accumulated
database. -/
theorem postEntries_all_ok (cfg : ListCfg) (files : Obj) :
    ∀ (es : List Data) (db db1 : Db), procAll cfg files es db = some db1 →
      postEntries cfg files es db = (.ok (.http201 (.obj [])), db1) := by
  intro es
  induction es with
  | nil =>
    intro db db1 h
    rw [procAll_nil] at h
    cases h
    rfl
  | cons e rest ih =>
    intro db db1 h
    rw [procAll_cons] at h
    rw [postEntries_cons]
    rcases hp : postData cfg files e db with ⟨o, dbe⟩
    rw [hp] at h
    rcases o with err | ret
    · simp at h
    · rcases ret with b | b | b
      · simp [isSuccessResp] at h
        simp
        exact ih dbe db1 h
      · simp [isSuccessResp] at h
        simp
        exact ih dbe db1 h
      · simp [isSuccessResp] at h

/-- When the entries before some element all succeed and that element's
recursive creation does not yield a success response — it returns a
non-success value or raises — the loop stops there: the overall outcome
is exactly that element's outcome, and the database keeps everything the
earlier elements created (no rollback). -/
theorem postEntries_abort (cfg : ListCfg) (files : Obj) :
    ∀ (pre : List Data) (db db1 : Db) (e : Data) (suf : List Data)
      (out : Except PyErr Resp) (db2 : Db),
      procAll cfg files pre db = some db1 →
      postData cfg files e db1 = (out, db2) →
      (∀ r, out = .ok r → isSuccessResp r = false) →
      postEntries cfg files (pre ++ e :: suf) db = (out, db2) := by
  intro pre
  induction pre with
  | nil =>
    intro db db1 e suf out db2 hpre hout hns
    rw [procAll_nil] at hpre
    cases hpre
    rw [List.nil_append, postEntries_cons, hout]
    rcases out with err | ret
    · rfl
    · rcases ret with b | b | b
      · exact absurd (hns _ rfl) (by simp [isSuccessResp])
      · exact absurd (hns _ rfl) (by simp [isSuccessResp])
      · rfl
  | cons p pre1 ih =>
    intro db db1 e suf out db2 hpre hout hns
    rw [procAll_cons] at hpre
    rw [List.cons_append, postEntries_cons]
    rcases hp : postData cfg files p db with ⟨o, dbp⟩
    rw [hp] at hpre
    rcases o with err | ret
    · simp at hpre
    · rcases ret with b | b | b
      · simp [isSuccessResp] at hpre
        simp
        exact ih dbp db1 e suf out db2 hpre hout hns
      · simp [isSuccessResp] at hpre
        simp
        exact ih dbp db1 e suf out db2 hpre hout hns
      · simp [isSuccessResp] at hpre

theorem get_instance_db (cfg : DetailCfg) (req : DReq) (db : Db) :
    (get_instance cfg req db).2 = db := by
  rcases cfg with ⟨m, f, lf, ms⟩
  rcases m with _ | m
  · rfl
  · rcases hg : getattr req.kwargs lf with _ | v
    · simp [get_instance, hg]
    · simp only [get_instance, hg]
      rcases ho : objects_get lf v db with e | r
      · cases e <;> rfl
      · rfl

/-- C1: the claimed method gating — a 405 when the request verb is not in
the `methods` allow-list, and the wrapped handler's actual (non-None)
result when it is — is the behaviour of the nested wrapper `new_method`
only.  The `method` decorator discards that wrapper and returns `None`,
so every decorated handler attribute is `None` and the claimed dispatch
never runs: the claim is intent, the decorator's missing return statement
is the defect. -/
theorem method_decorator_gating_bug :
    (∀ (σ α : Type) (mname : String) (methodsOf : σ → List String)
        (f : σ → α → M Resp), method mname methodsOf f = none)
    ∧ ListEndpoint_get = none ∧ ListEndpoint_post = none
    ∧ DetailEndpoint_get = none ∧ DetailEndpoint_patch = none
    ∧ DetailEndpoint_put = none ∧ DetailEndpoint_delete = none
    ∧ (∀ (σ α : Type) (mname : String) (methodsOf : σ → List String)
        (f : σ → α → M Resp) (self : σ) (arg : α) (db : Db),
        upperName mname ∉ methodsOf self →
        @new_method σ α mname methodsOf f self arg db =
          (.error (.httpError 405 "Method Not Allowed" []), db))
    ∧ (∀ (σ α : Type) (mname : String) (methodsOf : σ → List String)
        (f : σ → α → M Resp) (self : σ) (arg : α) (db : Db),
        upperName mname ∈ methodsOf self →
        @new_method σ α mname methodsOf f self arg db = f self arg db) := by
  refine ⟨fun _ _ _ _ _ => rfl, rfl, rfl, rfl, rfl, rfl, rfl, ?_, ?_⟩
  · intro σ α mname methodsOf f self arg db h
    simp [new_method, h]
  · intro σ α mname methodsOf f self arg db h
    simp [new_method, h]

/-- Witness for the gating theorem at a concrete configuration: with
methods = ['POST'] the wrapper 405s a GET and forwards an allowed POST,
while the decorator itself returns none. -/
theorem method_decorator_gating_bug_witness :
    @new_method ListCfg LReq "get" ListCfg.methods list_get
        ⟨none, none, ["POST"]⟩ ⟨.null, []⟩ [] =
      (.error (.httpError 405 "Method Not Allowed" []), [])
    ∧ @new_method ListCfg LReq "post" ListCfg.methods list_post
        ⟨none, none, ["POST"]⟩ ⟨.null, []⟩ [] =
      list_post ⟨none, none, ["POST"]⟩ ⟨.null, []⟩ []
    ∧ method "get" ListCfg.methods list_get = none :=
  ⟨method_decorator_gating_bug.2.2.2.2.2.2.2.1 ListCfg LReq "get" ListCfg.methods
      list_get ⟨none, none, ["POST"]⟩ ⟨.null, []⟩ [] (by decide),
    method_decorator_gating_bug.2.2.2.2.2.2.2.2 ListCfg LReq "post" ListCfg.methods
      list_post ⟨none, none, ["POST"]⟩ ⟨.null, []⟩ [] (by decide),
    method_decorator_gating_bug.1 ListCfg LReq "get" ListCfg.methods list_get⟩

/-- C2: the claimed single-object creation behaviour (bind the resolved
validator to the request payload, 400 with field errors on invalid data,
save and 201 on valid data) never happens: on every configured endpoint
(form resolution succeeds) the single-object path raises the
UnboundLocalError on `entry` at the form-binding step, before any
validation, and persists nothing — the claim is the documented intent,
`Form(entry or None, ...)` instead of the request payload is the slip. -/
theorem single_create_reads_unbound_entry (cfg : ListCfg) (files : Obj)
    (o : List (String × Val)) (db : Db) (F : FormCls)
    (hF : _get_form cfg.form cfg.model = .ok F) :
    postData cfg files (.obj o) db = (.error (.unboundLocalError "entry"), db) := by
  have hd : postData cfg files (.obj o) db = postSingle cfg files (.obj o) db := rfl
  rw [hd, postSingle_eq, hF]

/-- Witness: a configured list endpoint crashes on a well-formed
single-object POST payload, with the table unchanged. -/
theorem single_create_reads_unbound_entry_witness :
    postData exampleListCfg [] (.obj [("name", .vstr "x")]) [] =
      (.error (.unboundLocalError "entry"), []) :=
  single_create_reads_unbound_entry exampleListCfg [] [("name", .vstr "x")] []
    (modelform_factory exampleModel) rfl

/-- C3: batch create processes the entries in order, recursively invoking
the creation path with the same configuration and files and the entry as
payload; as soon as an element's outcome is not a success response
(Http200/Http201), the loop stops with exactly that outcome and the
database keeps everything the earlier elements created (no rollback);
when every element succeeds the result is a 201 with an empty body. -/
theorem batch_create_first_failure_no_rollback (cfg : ListCfg) (files : Obj) :
    (∀ (es : List Data) (db db1 : Db), procAll cfg files es db = some db1 →
      postData cfg files (.arr es) db = (.ok (.http201 (.obj [])), db1))
    ∧ (∀ (pre : List Data) (db db1 : Db) (e : Data) (suf : List Data)
        (out : Except PyErr Resp) (db2 : Db),
        procAll cfg files pre db = some db1 →
        postData cfg files e db1 = (out, db2) →
        (∀ r, out = .ok r → isSuccessResp r = false) →
        postData cfg files (.arr (pre ++ e :: suf)) db = (out, db2)) := by
  constructor
  · intro es db db1 h
    rw [postData_arr]
    exact postEntries_all_ok cfg files es db db1 h
  · intro pre db db1 e suf out db2 h1 h2 h3
    rw [postData_arr]
    exact postEntries_abort cfg files pre db db1 e suf out db2 h1 h2 h3

/-- Witness for the batch loop: an all-success batch (nested empty lists
are the only entries that can succeed, given the `entry` defect) returns
the empty-body 201; a batch whose second element is an object aborts at
that element with its UnboundLocalError, skipping the third element. -/
theorem batch_create_first_failure_witness :
    postData exampleListCfg [] (.arr [.arr [], .arr []]) [] =
      (.ok (.http201 (.obj [])), [])
    ∧ postData exampleListCfg [] (.arr [.arr [], .obj [("name", .vstr "x")], .arr []]) [] =
      (.error (.unboundLocalError "entry"), []) :=
  ⟨(batch_create_first_failure_no_rollback exampleListCfg []).1
      [.arr [], .arr []] [] [] rfl,
    (batch_create_first_failure_no_rollback exampleListCfg []).2
      [.arr []] [] [] (.obj [("name", .vstr "x")]) [.arr []]
      (.error (.unboundLocalError "entry")) [] rfl rfl
      (fun _ h => Except.noConfusion h)⟩

/-- C4: instance resolution raises the 404 Not Found error exactly when
the model attribute is unset, the configured lookup field is absent from
the path parameters, or no stored row matches the lookup value; otherwise,
when exactly one row matches, that unique instance is returned.  The
table is never modified. -/
theorem get_instance_not_found_iff (cfg : DetailCfg) (req : DReq) (db : Db) :
    ((get_instance cfg req db).1 =
        .error (.httpError 404 "Resource Not Found" []) ↔
      (cfg.model = none ∨ getattr req.kwargs cfg.lookup_field = none ∨
        ∃ v, getattr req.kwargs cfg.lookup_field = some v ∧
          db.filter (matchesField cfg.lookup_field v) = []))
    ∧ (get_instance cfg req db).2 = db
    ∧ (∀ (v : Val) (r : Obj), cfg.model ≠ none →
        getattr req.kwargs cfg.lookup_field = some v →
        db.filter (matchesField cfg.lookup_field v) = [r] →
        (get_instance cfg req db).1 = .ok r) := by
  refine ⟨?_, get_instance_db cfg req db, ?_⟩
  · rcases cfg with ⟨m, f, lf, ms⟩
    rcases m with _ | m
    · simp [get_instance]
    · rcases hg : getattr req.kwargs lf with _ | v
      · simp [get_instance, hg]
      · simp only [get_instance, hg]
        rcases hf : db.filter (matchesField lf v) with _ | ⟨r1, rest⟩
        · constructor
          · intro _
            exact .inr (.inr ⟨v, rfl, hf⟩)
          · intro _
            simp only [objects_get, hf]
        · constructor
          · intro h
            simp only [objects_get, hf] at h
            rcases rest with _ | ⟨r2, rest2⟩ <;> exact absurd h (by simp)
          · intro h
            rcases h with h | h | ⟨w, hw1, hw2⟩
            · exact absurd h (by simp)
            · exact absurd h (by simp)
            · have hvw : v = w := Option.some.inj hw1
              rw [← hvw] at hw2
              rw [hw2] at hf
              cases hf
  · intro v r hm hg hf
    rcases cfg with ⟨m, f, lf, ms⟩
    rcases m with _ | m
    · exact absurd rfl hm
    · simp only at hg hf
      simp only [get_instance, hg, objects_get, hf]

/-- Witness for instance resolution: looking up a missing primary key in a
one-row table raises the 404, and looking up the stored key returns the
unique row. -/
theorem get_instance_not_found_witness :
    (get_instance exampleDetailCfg ⟨.null, [], [("pk", .vint 2)]⟩ [exampleRow]).1 =
      .error (.httpError 404 "Resource Not Found" [])
    ∧ (get_instance exampleDetailCfg ⟨.null, [], [("pk", .vint 1)]⟩ [exampleRow]).1 =
      .ok exampleRow :=
  ⟨((get_instance_not_found_iff exampleDetailCfg ⟨.null, [], [("pk", .vint 2)]⟩
        [exampleRow]).1).mpr (.inr (.inr ⟨.vint 2, rfl, rfl⟩)),
    (get_instance_not_found_iff exampleDetailCfg ⟨.null, [], [("pk", .vint 1)]⟩
        [exampleRow]).2.2 (.vint 1) exampleRow (by simp [exampleDetailCfg]) rfl rfl⟩

/-- C5: PATCH with a resolvable instance assigns every payload key/value
pair directly onto the instance with plain attribute assignment, in
payload order — the last occurrence of a key wins, keys absent from the
payload are untouched, and no form is consulted (the handler's behaviour
is identical under any configured form, so keys outside any form's
allowed fields are set all the same) — then saves the instance and
returns a 200 with the serialized updated instance. -/
theorem patch_direct_assignment (cfg : DetailCfg) (req : DReq) (db : Db) (inst : Obj)
    (kvs : List (String × Val))
    (hres : get_instance cfg req db = (.ok inst, db))
    (hdata : req.data = .obj kvs) :
    detail_patch cfg req db =
      (.ok (.http200 (serializeObj (applyPairs kvs inst))), dbSave (applyPairs kvs inst) db)
    ∧ (∀ k, k ∉ kvs.map Prod.fst → getattr (applyPairs kvs inst) k = getattr inst k)
    ∧ (∀ (l1 : List (String × Val)) (k : String) (v : Val) (l2 : List (String × Val)),
        kvs = l1 ++ (k, v) :: l2 → k ∉ l2.map Prod.fst →
        getattr (applyPairs kvs inst) k = some v)
    ∧ (∀ f1 f2 : Option FormCls,
        detail_patch { cfg with form := f1 } req db =
          detail_patch { cfg with form := f2 } req db) := by
  refine ⟨?_, ?_, ?_, ?_⟩
  · simp only [detail_patch, hres, hdata]
  · intro k hk
    exact getattr_applyPairs_not_mem kvs inst hk
  · intro l1 k v l2 hsplit hk
    rw [hsplit]
    exact getattr_applyPairs_last l1 l2 inst hk
  · intro f1 f2
    rcases cfg with ⟨m, f, lf, ms⟩
    rfl

/-- Witness: patching a stored row with a key ("color") outside the
model form's field list sets the attribute anyway and saves the updated
row. -/
theorem patch_direct_assignment_witness :
    detail_patch exampleDetailCfg
        ⟨.obj [("color", .vstr "blue")], [], [("pk", .vint 1)]⟩ [exampleRow] =
      (.ok (.http200 (serializeObj (applyPairs [("color", .vstr "blue")] exampleRow))),
        dbSave (applyPairs [("color", .vstr "blue")] exampleRow) [exampleRow]) :=
  (patch_direct_assignment exampleDetailCfg
      ⟨.obj [("color", .vstr "blue")], [], [("pk", .vint 1)]⟩ [exampleRow] exampleRow
      [("color", .vstr "blue")] rfl rfl).1

/-- C6: PUT with a resolvable instance resolves the validator exactly as
create does, binds it to the (non-empty) payload plus the uploaded files
and the existing instance, and validates: on success the instance updated
from the form data is saved and returned in a 200 — attributes outside
the form's field list are left unchanged — and on failure a 400 carrying
the form's per-field errors is raised with the table untouched. -/
theorem put_validated_update (cfg : DetailCfg) (req : DReq) (db : Db) (F : FormCls)
    (inst : Obj) (o : List (String × Val))
    (hF : _get_form cfg.form cfg.model = .ok F)
    (hres : get_instance cfg req db = (.ok inst, db))
    (hdata : req.data = .obj o) (hne : o ≠ []) :
    (F.valid o req.files = true →
      detail_put cfg req db =
        (.ok (.http200 (serializeObj (constructInstance F.ffields o req.files inst))),
          dbSave (constructInstance F.ffields o req.files inst) db)
      ∧ ∀ k, k ∉ F.ffields →
          getattr (constructInstance F.ffields o req.files inst) k = getattr inst k)
    ∧ (F.valid o req.files = false →
      detail_put cfg req db =
        (.error (.httpError 400 "Invalid data" (F.errors o req.files)), db)) := by
  rcases o with _ | ⟨p, o1⟩
  · exact absurd rfl hne
  · constructor
    · intro hv
      constructor
      · simp only [detail_put, hF, hres, hdata, Data.truthy, List.isEmpty_cons,
          Bool.not_false, if_true, is_valid, hv, form_save]
      · intro k hk
        exact getattr_constructInstance_not_mem F.ffields ((p :: o1)) req.files inst hk
    · intro hv
      simp only [detail_put, hF, hres, hdata, Data.truthy, List.isEmpty_cons,
        Bool.not_false, if_true, is_valid, hv, form_errors]

/-- Witness for PUT: against the one-row table, a payload providing the
form's "name" field validates and saves the updated row; a payload
missing it is rejected with the form's field error and an unchanged
table. -/
theorem put_validated_update_witness :
    detail_put exampleDetailCfg
        ⟨.obj [("name", .vstr "y")], [], [("pk", .vint 1)]⟩ [exampleRow] =
      (.ok (.http200 (serializeObj
          (constructInstance ["name"] [("name", .vstr "y")] [] exampleRow))),
        dbSave (constructInstance ["name"] [("name", .vstr "y")] [] exampleRow)
          [exampleRow])
    ∧ detail_put exampleDetailCfg
        ⟨.obj [("color", .vstr "b")], [], [("pk", .vint 1)]⟩ [exampleRow] =
      (.error (.httpError 400 "Invalid data" [("name", "This field is required.")]),
        [exampleRow]) :=
  ⟨((put_validated_update exampleDetailCfg
        ⟨.obj [("name", .vstr "y")], [], [("pk", .vint 1)]⟩ [exampleRow]
        (modelform_factory exampleModel) exampleRow [("name", .vstr "y")]
        rfl rfl rfl (by simp)).1 rfl).1,
    (put_validated_update exampleDetailCfg
        ⟨.obj [("color", .vstr "b")], [], [("pk", .vint 1)]⟩ [exampleRow]
        (modelform_factory exampleModel) exampleRow [("color", .vstr "b")]
        rfl rfl rfl (by simp)).2 rfl⟩

/-- C7: every mutating operation resolves the instance — or propagates
the resolution failure (the 404, or the uncaught multiple-rows error)
with the table untouched — before any validation or mutation: PUT, PATCH
and DELETE return a failed `get_instance`'s error unchanged (for PUT,
under any resolved form, i.e. independently of validation), and the
create path can never mutate the table or reach validation at all: its
only outcomes are the empty-batch 201 and the two pre-validation
exceptions, with the table always returned unchanged. -/
theorem resolve_before_validate_or_mutate :
    (∀ (cfg : DetailCfg) (req : DReq) (db : Db) (e : PyErr),
      (get_instance cfg req db).1 = .error e →
      detail_patch cfg req db = (.error e, db))
    ∧ (∀ (cfg : DetailCfg) (req : DReq) (db : Db) (e : PyErr) (F : FormCls),
      _get_form cfg.form cfg.model = .ok F →
      (get_instance cfg req db).1 = .error e →
      detail_put cfg req db = (.error e, db))
    ∧ (∀ (cfg : DetailCfg) (req : DReq) (db : Db) (e : PyErr),
      (get_instance cfg req db).1 = .error e →
      detail_delete cfg req db = (.error e, db))
    ∧ (∀ (cfg : ListCfg) (files : Obj) (d : Data) (db : Db),
      (postData cfg files d db).2 = db ∧
        ((postData cfg files d db).1 = .ok (.http201 (.obj [])) ∨
          (postData cfg files d db).1 =
            .error (.notImplementedError "Form or Model class not specified") ∨
          (postData cfg files d db).1 = .error (.unboundLocalError "entry"))) := by
  have hpair : ∀ (cfg : DetailCfg) (req : DReq) (db : Db) (e : PyErr),
      (get_instance cfg req db).1 = .error e →
      get_instance cfg req db = (.error e, db) := by
    intro cfg req db e h
    have h2 := get_instance_db cfg req db
    rcases hq : get_instance cfg req db with ⟨o, db1⟩
    rw [hq] at h h2
    simp only at h h2
    rw [h, h2]
  refine ⟨?_, ?_, ?_, fun cfg files d db => postData_pure cfg files d db⟩
  · intro cfg req db e h
    simp only [detail_patch, hpair cfg req db e h]
  · intro cfg req db e F hF h
    simp only [detail_put, hF, hpair cfg req db e h]
  · intro cfg req db e h
    simp only [detail_delete, hpair cfg req db e h]

/-- Witness for the resolve-first invariant: on an empty table the three
detail handlers all return the resolution 404 with the table unchanged,
and a single-object create against a populated table leaves it unchanged
(failing before validation). -/
theorem resolve_before_validate_witness :
    detail_patch exampleDetailCfg ⟨.obj [("name", .vstr "y")], [], [("pk", .vint 1)]⟩ [] =
      (.error (.httpError 404 "Resource Not Found" []), [])
    ∧ detail_put exampleDetailCfg ⟨.obj [("name", .vstr "y")], [], [("pk", .vint 1)]⟩ [] =
      (.error (.httpError 404 "Resource Not Found" []), [])
    ∧ detail_delete exampleDetailCfg ⟨.null, [], [("pk", .vint 1)]⟩ [] =
      (.error (.httpError 404 "Resource Not Found" []), [])
    ∧ (postData exampleListCfg [] (.obj [("name", .vstr "x")]) [exampleRow]).2 =
      [exampleRow] :=
  ⟨resolve_before_validate_or_mutate.1 exampleDetailCfg
      ⟨.obj [("name", .vstr "y")], [], [("pk", .vint 1)]⟩ [] _ rfl,
    resolve_before_validate_or_mutate.2.1 exampleDetailCfg
      ⟨.obj [("name", .vstr "y")], [], [("pk", .vint 1)]⟩ []
      _ (modelform_factory exampleModel) rfl rfl,
    resolve_before_validate_or_mutate.2.2.1 exampleDetailCfg
      ⟨.null, [], [("pk", .vint 1)]⟩ [] _ rfl,
    (resolve_before_validate_or_mutate.2.2.2 exampleListCfg []
      (.obj [("name", .vstr "x")]) [exampleRow]).1⟩

/-- C8: with neither `form` nor `model` configured, form resolution raises
a bare NotImplementedError at request time — an ordinary exception that
is not an HttpError and is distinct from every HTTP error value — and the
handlers that reach form resolution (PUT, and POST before it can even
read `entry`) propagate it untranslated. -/
theorem missing_config_unhandled_error :
    _get_form none none =
      .error (.notImplementedError "Form or Model class not specified")
    ∧ (∀ (status : Nat) (msg : String) (errs : List (String × String)),
        PyErr.notImplementedError "Form or Model class not specified" ≠
          .httpError status msg errs)
    ∧ (∀ (cfg : DetailCfg) (req : DReq) (db : Db), cfg.form = none → cfg.model = none →
        detail_put cfg req db =
          (.error (.notImplementedError "Form or Model class not specified"), db))
    ∧ (∀ (cfg : ListCfg) (files : Obj) (d : Data) (db : Db), cfg.form = none →
        cfg.model = none → (∀ es, d ≠ .arr es) →
        postData cfg files d db =
          (.error (.notImplementedError "Form or Model class not specified"), db)) := by
  refine ⟨rfl, fun status msg errs h => PyErr.noConfusion h, ?_, ?_⟩
  · intro cfg req db hf hm
    simp only [detail_put, hf, hm, _get_form]
  · intro cfg files d db hf hm hnl
    rcases d with o | es | _
    · have hd : postData cfg files (.obj o) db = postSingle cfg files (.obj o) db := rfl
      rw [hd, postSingle_eq, hf, hm]
      rfl
    · exact absurd rfl (hnl es)
    · have hd : postData cfg files .null db = postSingle cfg files .null db := rfl
      rw [hd, postSingle_eq, hf, hm]
      rfl

/-- Witness: a detail endpoint and a list endpoint configured with
neither form nor model propagate the NotImplementedError on PUT and on a
single-object POST. -/
theorem missing_config_unhandled_error_witness :
    detail_put ⟨none, none, "pk", ["GET", "PUT", "PATCH", "DELETE"]⟩
        ⟨.obj [("name", .vstr "y")], [], [("pk", .vint 1)]⟩ [] =
      (.error (.notImplementedError "Form or Model class not specified"), [])
    ∧ postData ⟨none, none, ["GET", "POST"]⟩ [] (.obj [("name", .vstr "x")]) [] =
      (.error (.notImplementedError "Form or Model class not specified"), []) :=
  ⟨missing_config_unhandled_error.2.2.1 ⟨none, none, "pk", ["GET", "PUT", "PATCH", "DELETE"]⟩
      ⟨.obj [("name", .vstr "y")], [], [("pk", .vint 1)]⟩ [] rfl rfl,
    missing_config_unhandled_error.2.2.2 ⟨none, none, ["GET", "POST"]⟩ []
      (.obj [("name", .vstr "x")]) [] rfl rfl (fun _ h => Data.noConfusion h)⟩

/-- C9 counterexample: the claim says every non-list invocation fails
with the unbound-local error, but with neither form nor model configured
the call fails earlier, at form resolution (modelviews.py line 111 runs
before the `entry` read at line 112), with a NotImplementedError
instead. -/
theorem single_create_not_always_unbound :
    (postData ⟨none, none, ["GET", "POST"]⟩ [] (.obj [("name", .vstr "x")]) []).1 ≠
      .error (.unboundLocalError "entry") := by
  have h : (postData ⟨none, none, ["GET", "POST"]⟩ [] (.obj [("name", .vstr "x")]) []).1 =
      .error (.notImplementedError "Form or Model class not specified") := rfl
  rw [h]
  simp

/-- C9 (amended): on every non-list payload the form-binding step reads
the never-assigned local `entry`, so whenever form resolution succeeds
the invocation fails with the unbound-local error before any validation;
when form resolution fails instead, that (still pre-validation)
configuration error is raised.  Either way no row is persisted, the
table is returned unchanged, and form.save() is never reached. -/
theorem single_create_unbound_amended (cfg : ListCfg) (files : Obj) (d : Data)
    (db : Db) (hnl : ∀ es, d ≠ .arr es) :
    (∀ F, _get_form cfg.form cfg.model = .ok F →
      postData cfg files d db = (.error (.unboundLocalError "entry"), db))
    ∧ (∀ e, _get_form cfg.form cfg.model = .error e →
      postData cfg files d db = (.error e, db)) := by
  have hd : postData cfg files d db = postSingle cfg files d db := by
    rcases d with o | es | _
    · rfl
    · exact absurd rfl (hnl es)
    · rfl
  constructor
  · intro F hF
    rw [hd, postSingle_eq, hF]
  · intro e he
    rw [hd, postSingle_eq, he]

/-- Witness for the amended claim: on a configured endpoint a non-list
POST payload crashes with the unbound-local error, leaving the one-row
table unchanged. -/
theorem single_create_unbound_amended_witness :
    postData exampleListCfg [] (.obj [("extra", .vint 3)]) [exampleRow] =
      (.error (.unboundLocalError "entry"), [exampleRow]) :=
  (single_create_unbound_amended exampleListCfg [] (.obj [("extra", .vint 3)])
      [exampleRow] (fun _ h => Data.noConfusion h)).1
    (modelform_factory exampleModel) rfl

/-- C10: a PUT whose payload is the empty JSON object is indistinguishable
from a PUT with an absent payload — `request.data or None` turns every
falsy payload into None, binding an unbound form — and is always rejected
with a 400 carrying no field errors, no matter what the configured form
class would accept of an empty submission. -/
theorem put_empty_payload_never_valid (cfg : DetailCfg) (files : Obj)
    (kwargs : List (String × Val)) (db : Db) (F : FormCls) (inst : Obj)
    (hF : _get_form cfg.form cfg.model = .ok F)
    (hres : get_instance cfg ⟨.obj [], files, kwargs⟩ db = (.ok inst, db)) :
    detail_put cfg ⟨.obj [], files, kwargs⟩ db =
      detail_put cfg ⟨.null, files, kwargs⟩ db
    ∧ detail_put cfg ⟨.obj [], files, kwargs⟩ db =
      (.error (.httpError 400 "Invalid data" []), db) := by
  have hres2 : get_instance cfg ⟨.null, files, kwargs⟩ db = (.ok inst, db) := hres
  constructor
  · simp only [detail_put, hF, hres, hres2]
    rfl
  · simp only [detail_put, hF, hres]
    rfl

/-- Witness: with a form class that accepts any submission (so the empty
update would be schema-valid), PUT with payload {} is still rejected with
an empty-errors 400, identically to a PUT with no payload. -/
theorem put_empty_payload_never_valid_witness :
    detail_put ⟨some exampleModel, some ⟨[], fun _ _ => true, fun _ _ => []⟩, "pk",
        ["GET", "PUT", "PATCH", "DELETE"]⟩ ⟨.obj [], [], [("pk", .vint 1)]⟩ [exampleRow] =
      detail_put ⟨some exampleModel, some ⟨[], fun _ _ => true, fun _ _ => []⟩, "pk",
        ["GET", "PUT", "PATCH", "DELETE"]⟩ ⟨.null, [], [("pk", .vint 1)]⟩ [exampleRow]
    ∧ detail_put ⟨some exampleModel, some ⟨[], fun _ _ => true, fun _ _ => []⟩, "pk",
        ["GET", "PUT", "PATCH", "DELETE"]⟩ ⟨.obj [], [], [("pk", .vint 1)]⟩ [exampleRow] =
      (.error (.httpError 400 "Invalid data" []), [exampleRow]) :=
  put_empty_payload_never_valid
    ⟨some exampleModel, some ⟨[], fun _ _ => true, fun _ _ => []⟩, "pk",
      ["GET", "PUT", "PATCH", "DELETE"]⟩ [] [("pk", .vint 1)] [exampleRow]
    ⟨[], fun _ _ => true, fun _ _ => []⟩ exampleRow rfl rfl
